import Mathlib

/-!
Verification of the normalization layer, error taxonomy, date helpers and
operation dispatch of the `mcp-gsc-oauth` repository (a Google Search Console
MCP server), shallowly embedded in Lean 4.

Modelling conventions:
* Python `dict` responses from the remote service are embedded as structures
  whose optional JSON fields are `Option` values (`None` = key absent).
* Python numbers appearing in analytics rows are embedded as exact rationals
  `ℚ`; Python's `round(x, n)` (round-half-to-even on the scaled value) is
  embedded as `pyRound` below.
* A formatted row's fields `dimension_0`, `dimension_1`, … are embedded as the
  list `dims`; `FormattedRow.getDim i` models presence and value of the dict
  key `dimension_i` (those keys are pairwise distinct, so the dict restricted
  to dimension fields is exactly this list).
-/

namespace McpGsc

/-- Round-half-to-even on an exact rational, the tie-breaking rule of Python's
built-in `round` (embedded over `ℚ` rather than IEEE doubles). -/
def roundHalfEven (q : ℚ) : ℤ :=
  let f := ⌊q⌋
  if q - (f : ℚ) < 1/2 then f
  else if (1 : ℚ)/2 < q - (f : ℚ) then f + 1
  else if f % 2 = 0 then f else f + 1

/-- Python's `round(q, n)` for `n ≥ 0` digits, on exact rationals. -/
def pyRound (q : ℚ) (n : ℕ) : ℚ :=
  (roundHalfEven (q * 10 ^ n) : ℚ) / 10 ^ n

/-- One raw row of a `searchanalytics.query` response
(`utils.py:format_analytics_response` input).  Each field is `none` when the
corresponding JSON key is absent. -/
structure RawRow where
  keys : Option (List String)
  clicks : Option ℚ
  impressions : Option ℚ
  ctr : Option ℚ
  position : Option ℚ
deriving Repr, DecidableEq

/-- A raw `searchanalytics.query` response mapping: an optional `rows`
sequence plus the (unused by the formatter's output) aggregation type. -/
structure RawResponse where
  rows : Option (List RawRow)
  responseAggregationType : Option String
deriving Repr, DecidableEq

/-- One formatted row produced by `format_analytics_response`: the dict with
the positional `dimension_i` fields (held as the list `dims`) followed by the
four metric fields `clicks`, `impressions`, `ctr` and `position`. -/
structure FormattedRow where
  dims : List String
  clicks : ℚ
  impressions : ℚ
  ctr : ℚ
  position : ℚ
deriving Repr, DecidableEq

/-- Presence and value of the dict field `dimension_i` on a formatted row:
`some v` when the field is present with value `v`, `none` when absent. -/
def FormattedRow.getDim (r : FormattedRow) (i : ℕ) : Option String :=
  r.dims.get? i

/-- The formatted response: the fields `rows` and `total_rows`. -/
structure FormattedResponse where
  rows : List FormattedRow
  total_rows : ℕ
deriving Repr, DecidableEq

/-- The per-row body of the loop in `utils.py:format_analytics_response`:
dimension fields from `keys` (one `dimension_i` per entry, absent key ⇒ no
dimension fields), then the four metrics with default `0`, `ctr` scaled to a
percentage and rounded to 2 places, `position` rounded to 1 place. -/
def format_row (row : RawRow) : FormattedRow :=
  { dims := row.keys.getD []
  , clicks := row.clicks.getD 0
  , impressions := row.impressions.getD 0
  , ctr := pyRound (row.ctr.getD 0 * 100) 2
  , position := pyRound (row.position.getD 0) 1 }

/-- The function `utils.py:format_analytics_response`: map the loop body over
the `rows` sequence (defaulted to empty when the key is absent) and return the
formatted rows together with their recomputed count. -/
def format_analytics_response (response : RawResponse) : FormattedResponse :=
  let formatted_rows := (response.rows.getD []).map format_row
  { rows := formatted_rows
  , total_rows := formatted_rows.length }

lemma pyRound_ratio_example : pyRound ((1234/10000 : ℚ) * 100) 2 = 1234/100 := by
  norm_num [pyRound, roundHalfEven]

lemma pyRound_zero (n : ℕ) : pyRound 0 n = 0 := by
  norm_num [pyRound, roundHalfEven]

/-- C1: If the raw response's `rows` key is absent or maps to `[]`, the
formatted result has an empty row list and `total_rows = 0`; and on every
input, `total_rows` is the length of the returned row list (recomputed from the
output, not read from the input). -/
theorem format_analytics_response_empty_and_recount :
    (∀ response : RawResponse,
      response.rows = none ∨ response.rows = some [] →
        (format_analytics_response response).rows = [] ∧
        (format_analytics_response response).total_rows = 0) ∧
    (∀ response : RawResponse,
      (format_analytics_response response).total_rows =
        (format_analytics_response response).rows.length) := by
  constructor
  · intro response h
    rcases h with h | h <;> simp [format_analytics_response, h]
  · intro response
    simp [format_analytics_response]

/-- Witness for C1: the empty-`rows` branch at the concrete response with the
`rows` key absent. -/
theorem format_analytics_response_empty_and_recount_witness :
    (format_analytics_response ⟨none, none⟩).rows = [] ∧
    (format_analytics_response ⟨none, none⟩).total_rows = 0 :=
  format_analytics_response_empty_and_recount.1 ⟨none, none⟩ (Or.inl rfl)

/-- C2: A raw row carrying `keys = ks` yields exactly one `dimension_i`
field per entry of `ks` (value the key itself, index starting at 0) and no
`dimension_i` field for `i ≥ ks.length`; a row without `keys` yields no
dimension field at all. -/
theorem format_row_dimension_fields :
    (∀ (row : RawRow) (ks : List String), row.keys = some ks →
      (∀ i : ℕ, ∀ h : i < ks.length,
        (format_row row).getDim i = some (ks.get ⟨i, h⟩)) ∧
      (∀ i : ℕ, ks.length ≤ i → (format_row row).getDim i = none)) ∧
    (∀ row : RawRow, row.keys = none →
      ∀ i : ℕ, (format_row row).getDim i = none) := by
  constructor
  · intro row ks h
    constructor
    · intro i hi
      simp [format_row, FormattedRow.getDim, h, List.get?_eq_get hi]
    · intro i hi
      simpa [format_row, FormattedRow.getDim, h, List.get?_eq_none] using hi
  · intro row h i
    simp [format_row, FormattedRow.getDim, h]

/-- Witness for C2: the concrete row with `keys = ["a", "b"]` has
`dimension_0 = "a"`, `dimension_1 = "b"` and no `dimension_2`. -/
theorem format_row_dimension_fields_witness :
    (format_row ⟨some ["a", "b"], none, none, none, none⟩).getDim 0 = some "a" ∧
    (format_row ⟨some ["a", "b"], none, none, none, none⟩).getDim 1 = some "b" ∧
    (format_row ⟨some ["a", "b"], none, none, none, none⟩).getDim 2 = none :=
  ⟨(format_row_dimension_fields.1 _ ["a", "b"] rfl).1 0 (by decide),
   (format_row_dimension_fields.1 _ ["a", "b"] rfl).1 1 (by decide),
   (format_row_dimension_fields.1 _ ["a", "b"] rfl).2 2 (by decide)⟩

/-- C3: Metric normalization per raw row: `ctr` output is
`round(raw_ctr × 100, 2)`, `position` output is `round(raw_position, 1)`,
`clicks`/`impressions` pass through unrounded, each of the four metrics
defaults to `0` when absent; raw ctr ratio `0.1234` yields `12.34` and raw
ctr `0` yields `0`. -/
theorem format_row_metric_normalization :
    (∀ row : RawRow,
      (format_row row).ctr = pyRound (row.ctr.getD 0 * 100) 2 ∧
      (format_row row).position = pyRound (row.position.getD 0) 1 ∧
      (format_row row).clicks = row.clicks.getD 0 ∧
      (format_row row).impressions = row.impressions.getD 0) ∧
    (∀ row : RawRow, row.clicks = none → (format_row row).clicks = 0) ∧
    (∀ row : RawRow, row.impressions = none → (format_row row).impressions = 0) ∧
    (∀ row : RawRow, row.ctr = none → (format_row row).ctr = 0) ∧
    (∀ row : RawRow, row.position = none → (format_row row).position = 0) ∧
    (∀ row : RawRow, row.ctr = some (1234/10000) → (format_row row).ctr = 1234/100) ∧
    (∀ row : RawRow, row.ctr = some 0 → (format_row row).ctr = 0) := by
  refine ⟨fun row => ⟨rfl, rfl, rfl, rfl⟩, ?_, ?_, ?_, ?_, ?_, ?_⟩
  · intro row h; simp [format_row, h]
  · intro row h; simp [format_row, h]
  · intro row h
    simp [format_row, h, pyRound_zero]
  · intro row h; simp [format_row, h, pyRound_zero]
  · intro row h; simp only [format_row, h, Option.getD_some]
    exact pyRound_ratio_example
  · intro row h; simp [format_row, h, pyRound_zero]

/-- Witness for C3: a concrete row with raw ctr ratio `0.1234` and every other
metric absent formats to `ctr = 12.34`, `position = 0`, `clicks = 0`. -/
theorem format_row_metric_normalization_witness :
    (format_row ⟨none, none, none, some (1234/10000), none⟩).ctr = 1234/100 ∧
    (format_row ⟨none, none, none, some (1234/10000), none⟩).position = 0 ∧
    (format_row ⟨none, none, none, some (1234/10000), none⟩).clicks = 0 :=
  ⟨format_row_metric_normalization.2.2.2.2.2.1 _ rfl,
   format_row_metric_normalization.2.2.2.2.1 _ rfl,
   format_row_metric_normalization.2.1 _ rfl⟩

/-- Tests whether `pat` is an initial segment of the second list (helper for
the substring test). -/
def startsWithChars : List Char → List Char → Bool
  | [], _ => true
  | _ :: _, [] => false
  | p :: ps, c :: cs => p = c && startsWithChars ps cs

/-- Tests whether `pat` occurs contiguously somewhere in the second list
(helper for the substring test). -/
def hasSubChars (pat : List Char) : List Char → Bool
  | [] => startsWithChars pat []
  | c :: cs => startsWithChars pat (c :: cs) || hasSubChars pat cs

/-- Python's substring membership test on strings (the `in` operator):
contiguous substring occurrence. -/
def strContains (s pat : String) : Bool :=
  hasSubChars pat.toList s.toList

/-- The function `utils.py:format_error_message`, a pure function of the
failure text `str(error)`:
first-match-wins substring dispatch over "403", "404", "401", "429", "400",
falling through to an unknown-error message carrying the original text. -/
def format_error_message (error_str : String) : String :=
  if strContains error_str "403" then
    "Permission denied. Please check that you have access to this site in Google Search Console."
  else if strContains error_str "404" then
    "Resource not found. Please verify the site URL or resource path."
  else if strContains error_str "401" then
    "Authentication failed. Please re-authenticate with Google."
  else if strContains error_str "429" then
    "Rate limit exceeded. Please try again later."
  else if strContains error_str "400" then
    "Invalid request: " ++ error_str
  else
    "An error occurred: " ++ error_str

/-- C4: `format_error_message` applies first-match-wins substring dispatch
in the fixed priority order 403, 404, 401, 429, 400, else unknown; the 400 and
unknown branches carry the original text, and any text containing "403"
(in particular one containing both "403" and "404") yields permission-denied. -/
theorem format_error_message_priority_order :
    (∀ s : String, strContains s "403" = true →
      format_error_message s =
        "Permission denied. Please check that you have access to this site in Google Search Console.") ∧
    (∀ s : String, strContains s "403" = false → strContains s "404" = true →
      format_error_message s =
        "Resource not found. Please verify the site URL or resource path.") ∧
    (∀ s : String, strContains s "403" = false → strContains s "404" = false →
      strContains s "401" = true →
      format_error_message s =
        "Authentication failed. Please re-authenticate with Google.") ∧
    (∀ s : String, strContains s "403" = false → strContains s "404" = false →
      strContains s "401" = false → strContains s "429" = true →
      format_error_message s = "Rate limit exceeded. Please try again later.") ∧
    (∀ s : String, strContains s "403" = false → strContains s "404" = false →
      strContains s "401" = false → strContains s "429" = false →
      strContains s "400" = true →
      format_error_message s = "Invalid request: " ++ s) ∧
    (∀ s : String, strContains s "403" = false → strContains s "404" = false →
      strContains s "401" = false → strContains s "429" = false →
      strContains s "400" = false →
      format_error_message s = "An error occurred: " ++ s) ∧
    (∀ s : String, strContains s "403" = true → strContains s "404" = true →
      format_error_message s =
        "Permission denied. Please check that you have access to this site in Google Search Console.") := by
  refine ⟨?_, ?_, ?_, ?_, ?_, ?_, ?_⟩ <;>
    intro s <;> intros <;> simp_all [format_error_message]

/-- Witness for C4: a text containing both "403" and "404" is categorized as
permission-denied; a text with none of the codes gets the unknown-error
message. -/
theorem format_error_message_priority_order_witness :
    format_error_message "HttpError 403: also mentions 404" =
      "Permission denied. Please check that you have access to this site in Google Search Console." ∧
    format_error_message "boom" = "An error occurred: boom" :=
  ⟨format_error_message_priority_order.1 _ (by decide),
   format_error_message_priority_order.2.2.2.2.2.1 _ (by decide) (by decide)
     (by decide) (by decide) (by decide)⟩

/-- Decimal digit value of a character, `none` for non-digits. -/
def digitVal (c : Char) : Option ℕ :=
  if c.isDigit then some (c.toNat - 48) else none

/-- Proleptic-Gregorian leap-year rule used by Python's `datetime`. -/
def isLeapYear (y : ℕ) : Bool :=
  (y % 4 == 0 && y % 100 != 0) || y % 400 == 0

/-- Days in month `m` of year `y` (Python `datetime` constructor bound). -/
def daysInMonth (y m : ℕ) : ℕ :=
  if m = 2 then (if isLeapYear y then 29 else 28)
  else if m = 4 ∨ m = 6 ∨ m = 9 ∨ m = 11 then 30
  else 31

/-- The `%m`-style field of CPython's `_strptime` regexes (also `%d` with a
different bound): one or two decimal digits denoting a value in `1..lim`;
with two digits present, an out-of-range value cannot fall back to the
single-digit alternative, because the leftover digit then fails the pattern
that follows (the literal `-` for `%m`, end-of-input for `%d`). -/
def parseNum2 (lim : ℕ) : List Char → Option (ℕ × List Char)
  | c1 :: c2 :: rest =>
    match digitVal c1, digitVal c2 with
    | some d1, some d2 =>
        let v := 10 * d1 + d2
        if 1 ≤ v ∧ v ≤ lim then some (v, rest) else none
    | some d1, none => if 1 ≤ d1 then some (d1, c2 :: rest) else none
    | none, _ => none
  | [c1] =>
    match digitVal c1 with
    | some d1 => if 1 ≤ d1 then some (d1, []) else none
    | none => none
  | [] => none

/-- The function `utils.py:validate_date`: whether
`datetime.strptime(date_str, "%Y-%m-%d")`
succeeds — exactly four year digits, a literal `-`, a 1-2 digit month in
1..12, a literal `-`, a 1-2 digit day in 1..31, nothing left over, the year
at least 1 and the day within the month's length. -/
def validate_date (date_str : String) : Bool :=
  match date_str.toList with
  | y1 :: y2 :: y3 :: y4 :: sep :: rest =>
    match digitVal y1, digitVal y2, digitVal y3, digitVal y4 with
    | some a, some b, some c, some d =>
      let y := 1000 * a + 100 * b + 10 * c + d
      if sep = '-' ∧ 1 ≤ y then
        match parseNum2 12 rest with
        | some (m, sep2 :: rest2) =>
          if sep2 = '-' then
            match parseNum2 31 rest2 with
            | some (dd, []) => decide (dd ≤ daysInMonth y m)
            | _ => false
          else false
        | _ => false
      else false
    | _, _, _, _ => false
  | _ => false

/-- The JSON request body that `tools.py:query_search_analytics` sends to
`searchanalytics.query` (the `dimensions` key is omitted when the argument is
`None` or empty). -/
structure AnalyticsRequestBody where
  startDate : String
  endDate : String
  rowLimit : ℤ
  startRow : ℤ
  dimensions : Option (List String)
deriving Repr, DecidableEq

/-- What `tools.py:query_search_analytics` does before its remote call
returns: either it raises the categorized validation error — before the
access token is acquired and before any remote request is issued — or it
acquires the token and issues exactly one remote request with the recorded
body. -/
inductive QueryTrace where
  | validationError (message : String)
  | remoteCall (body : AnalyticsRequestBody)
deriving Repr, DecidableEq

/-- The control flow of `tools.py:query_search_analytics` up to its single
remote call: date validation first (failure ⇒ `ValueError` caught and
re-raised as the categorized message, no token acquisition, no remote call),
then the request body with `rowLimit = min(row_limit, 25000)` and
`startRow = start_row`. -/
def query_search_analytics_trace (start_date end_date : String)
    (dimensions : Option (List String)) (row_limit start_row : ℤ) : QueryTrace :=
  if validate_date start_date && validate_date end_date then
    .remoteCall
      { startDate := start_date
      , endDate := end_date
      , rowLimit := min row_limit 25000
      , startRow := start_row
      , dimensions :=
          match dimensions with
          | some (d :: ds) => some (d :: ds)
          | _ => none }
  else
    .validationError (format_error_message "Dates must be in YYYY-MM-DD format")

/-- Full result of the `query_search_analytics` tool, with the remote service
abstracted as a function from the request body to either a raw response or
the text of the raised exception: `Except.error` models the tool re-raising
`Exception(format_error_message(e))`. -/
def query_search_analytics (start_date end_date : String)
    (dimensions : Option (List String)) (row_limit start_row : ℤ)
    (remote : AnalyticsRequestBody → Except String RawResponse) :
    Except String FormattedResponse :=
  match query_search_analytics_trace start_date end_date dimensions row_limit start_row with
  | .validationError msg => .error msg
  | .remoteCall body =>
    match remote body with
    | .ok response => .ok (format_analytics_response response)
    | .error e => .error (format_error_message e)

/-- C5: With valid dates, `query_search_analytics` issues its single
remote request with `rowLimit` equal to the caller's `row_limit` clamped to
25000 (so a request for 100000 rows is capped at 25000) and `startRow` equal
to the caller's `start_row` unmodified. -/
theorem query_search_analytics_row_limit_clamp
    (start_date end_date : String) (dimensions : Option (List String))
    (row_limit start_row : ℤ)
    (h1 : validate_date start_date = true) (h2 : validate_date end_date = true) :
    ∃ body : AnalyticsRequestBody,
      query_search_analytics_trace start_date end_date dimensions row_limit start_row =
        .remoteCall body ∧
      body.rowLimit = min row_limit 25000 ∧
      body.startRow = start_row ∧
      body.startDate = start_date ∧ body.endDate = end_date ∧
      (row_limit = 100000 → body.rowLimit = 25000) := by
  refine ⟨{ startDate := start_date, endDate := end_date,
            rowLimit := min row_limit 25000, startRow := start_row,
            dimensions :=
              match dimensions with
              | some (d :: ds) => some (d :: ds)
              | _ => none },
          ?_, rfl, rfl, rfl, rfl, ?_⟩
  · simp [query_search_analytics_trace, h1, h2]
  · intro h; subst h; simp

/-- Witness for C5: a concrete call with valid dates and `row_limit = 100000`
issues a remote request with `rowLimit = 25000` and `startRow = 5`. -/
theorem query_search_analytics_row_limit_clamp_witness :
    ∃ body : AnalyticsRequestBody,
      query_search_analytics_trace "2024-01-01" "2024-01-31" none 100000 5 =
        .remoteCall body ∧
      body.rowLimit = 25000 ∧ body.startRow = 5 := by
  obtain ⟨body, ht, hr, hs, -, -, h100⟩ :=
    query_search_analytics_row_limit_clamp "2024-01-01" "2024-01-31" none 100000 5
      (by decide) (by decide)
  exact ⟨body, ht, h100 rfl, hs⟩

/-- C6: A start or end date that does not parse as `YYYY-MM-DD` makes
`query_search_analytics` fail with the validation error before the token is
acquired and before any remote call (the `validationError` trace);
"2024-13-40" and "2024/01/01" are invalid, "2024-01-01" is valid. -/
theorem query_search_analytics_rejects_invalid_dates :
    (∀ (start_date end_date : String) (dimensions : Option (List String))
      (row_limit start_row : ℤ),
      validate_date start_date = false ∨ validate_date end_date = false →
      query_search_analytics_trace start_date end_date dimensions row_limit start_row =
        .validationError (format_error_message "Dates must be in YYYY-MM-DD format")) ∧
    validate_date "2024-13-40" = false ∧
    validate_date "2024/01/01" = false ∧
    validate_date "2024-01-01" = true := by
  refine ⟨?_, by decide, by decide, by decide⟩
  intro start_date end_date dimensions row_limit start_row h
  rcases h with h | h <;> simp [query_search_analytics_trace, h]

/-- Witness for C6: the concrete invalid start date "2024-13-40" produces the
validation-error trace. -/
theorem query_search_analytics_rejects_invalid_dates_witness :
    query_search_analytics_trace "2024-13-40" "2024-01-01" none 1000 0 =
      .validationError (format_error_message "Dates must be in YYYY-MM-DD format") :=
  query_search_analytics_rejects_invalid_dates.1 "2024-13-40" "2024-01-01" none 1000 0
    (Or.inl (by decide))

/-- The proleptic-Gregorian calendar date `(year, month, day)` of the day
numbered `z` from the epoch 1970-01-01 (Hinnant's `civil_from_days`
algorithm), valid on the whole `datetime`-representable range of years
1..9999. -/
def civilFromDays (z : ℤ) : ℕ × ℕ × ℕ :=
  let n := (z + 719468).toNat
  let era := n / 146097
  let doe := n % 146097
  let yoe := (doe - doe / 1460 + doe / 36524 - doe / 146096) / 365
  let doy := doe - (365 * yoe + yoe / 4 - yoe / 100)
  let mp := (5 * doy + 2) / 153
  let d := doy - (153 * mp + 2) / 5 + 1
  let m := if mp < 10 then mp + 3 else mp - 9
  let y := yoe + era * 400
  (if m ≤ 2 then y + 1 else y, m, d)

/-- Four decimal digits of a year (the `%Y` field for the supported years). -/
def pad4Chars (x : ℕ) : List Char :=
  [Nat.digitChar (x / 1000 % 10), Nat.digitChar (x / 100 % 10),
   Nat.digitChar (x / 10 % 10), Nat.digitChar (x % 10)]

/-- Two zero-padded decimal digits (the `%m` and `%d` fields). -/
def pad2Chars (x : ℕ) : List Char :=
  [Nat.digitChar (x / 10 % 10), Nat.digitChar (x % 10)]

/-- Rendering `strftime("%Y-%m-%d")` of a civil date. -/
def formatCivil : ℕ × ℕ × ℕ → String
  | (y, m, d) => String.mk (pad4Chars y ++ '-' :: pad2Chars m ++ '-' :: pad2Chars d)

/-- The function `utils.py:get_date_range`: with `now` the day number of the current local
date, `end_date = now - 3 days` (upstream reporting latency) and
`start_date = end_date - days`, both rendered with `strftime("%Y-%m-%d")`.
Subtracting whole days from a `datetime` leaves the time of day unchanged, so
the rendered calendar dates are exactly these shifted day numbers. -/
def get_date_range (now : ℤ) (days : ℤ) : String × String :=
  let end_date := now - 3
  let start_date := end_date - days
  (formatCivil (civilFromDays start_date), formatCivil (civilFromDays end_date))

/-- A string consists of 4 decimal digits, `-`, 2 digits, `-`, 2 digits. -/
def isYMDString (s : String) : Bool :=
  match s.toList with
  | [a, b, c, d, s1, e, f, s2, g, k] =>
    a.isDigit && b.isDigit && c.isDigit && d.isDigit && s1 = '-' &&
    e.isDigit && f.isDigit && s2 = '-' && g.isDigit && k.isDigit
  | _ => false

lemma isDigit_digitChar_mod (k : ℕ) : (Nat.digitChar (k % 10)).isDigit = true := by
  have h : k % 10 < 10 := Nat.mod_lt _ (by norm_num)
  set j := k % 10 with hj
  interval_cases j <;> decide

lemma isYMDString_formatCivil (c : ℕ × ℕ × ℕ) : isYMDString (formatCivil c) = true := by
  obtain ⟨y, m, d⟩ := c
  simp [formatCivil, pad4Chars, pad2Chars, isYMDString, String.toList,
    isDigit_digitChar_mod]

set_option maxHeartbeats 4000000 in
/-- C7: For every day count and every fixed "now", `get_date_range`
returns `(start, end)` with `end` the calendar date of `now − 3` days,
`start` the calendar date of `end − day_count`, both in `YYYY-MM-DD` form;
concretely, with "now" at day 19737 (2024-01-15) and a 7-day window it
returns ("2024-01-05", "2024-01-12"). -/
theorem get_date_range_offsets :
    (∀ now days : ℤ,
      (get_date_range now days).2 = formatCivil (civilFromDays (now - 3)) ∧
      (get_date_range now days).1 = formatCivil (civilFromDays (now - 3 - days)) ∧
      isYMDString (get_date_range now days).1 = true ∧
      isYMDString (get_date_range now days).2 = true) ∧
    get_date_range 19737 7 = ("2024-01-05", "2024-01-12") := by
  constructor
  · intro now days
    exact ⟨rfl, rfl, isYMDString_formatCivil (civilFromDays (now - 3 - days)),
      isYMDString_formatCivil (civilFromDays (now - 3))⟩
  · decide

/-- A byte of the UTF-8 encoding of a Python `str`.  `quote`/`unquote`
operate on this byte sequence; we embed both endpoints at the byte level. -/
abbrev Byte := Fin 256

/-- Truncate a natural number to a byte (identity on the values produced by
the functions below, which all stay under 256). -/
def byteOfNat (n : ℕ) : Byte :=
  ⟨n % 256, Nat.mod_lt _ (by norm_num)⟩

/-- The characters `urllib.parse.quote` never escapes (ASCII letters,
digits, underscore, dot, hyphen, tilde); with an empty safe set every other
byte is percent-escaped. -/
def isAlwaysSafe (b : Byte) : Bool :=
  (65 ≤ b.val && b.val ≤ 90) || (97 ≤ b.val && b.val ≤ 122) ||
  (48 ≤ b.val && b.val ≤ 57) || b.val == 95 || b.val == 46 ||
  b.val == 45 || b.val == 126

/-- Uppercase hexadecimal digit, as `quote` emits inside `%XX` escapes. -/
def hexDigitChar (k : ℕ) : Char :=
  if k < 10 then Char.ofNat (48 + k) else Char.ofNat (55 + k)

/-- Hexadecimal value of a character; `unquote` accepts both cases. -/
def hexCharVal (c : Char) : Option ℕ :=
  if '0' ≤ c ∧ c ≤ '9' then some (c.toNat - 48)
  else if 'A' ≤ c ∧ c ≤ 'F' then some (c.toNat - 55)
  else if 'a' ≤ c ∧ c ≤ 'f' then some (c.toNat - 87)
  else none

/-- How `quote` with an empty safe set renders one input byte: an
always-safe byte stays as its ASCII character, every other byte becomes
`%XX` (uppercase hex). -/
def encodeByte (b : Byte) : List Char :=
  if isAlwaysSafe b then [Char.ofNat b.val]
  else ['%', hexDigitChar (b.val / 16), hexDigitChar (b.val % 16)]

/-- The function `utils.py:encode_site_url`, that is `urllib.parse.quote`
with an empty safe set, applied to the UTF-8 bytes of the argument. -/
def encode_site_url (site_url : List Byte) : String :=
  String.mk (site_url.flatMap encodeByte)

/-- UTF-8 bytes of one character (how `unquote` re-encodes a literal,
non-escaped character of its input before decoding the result). -/
def utf8Bytes (c : Char) : List Byte :=
  let n := c.toNat
  if n < 128 then [byteOfNat n]
  else if n < 2048 then [byteOfNat (192 + n / 64), byteOfNat (128 + n % 64)]
  else if n < 65536 then
    [byteOfNat (224 + n / 4096), byteOfNat (128 + n / 64 % 64),
     byteOfNat (128 + n % 64)]
  else
    [byteOfNat (240 + n / 262144), byteOfNat (128 + n / 4096 % 64),
     byteOfNat (128 + n / 64 % 64), byteOfNat (128 + n % 64)]

/-- The byte stream of `urllib.parse.unquote`: `%` followed by two hex digits
decodes to that byte, a `%` not followed by two hex digits stays a literal
`%` (byte 37), and any other character contributes its own UTF-8 bytes. -/
def unquoteBytes : List Char → List Byte
  | [] => []
  | c :: cs =>
    if c = '%' then
      let fallback := byteOfNat 37 :: unquoteBytes cs
      match cs with
      | c1 :: c2 :: rest =>
        match hexCharVal c1, hexCharVal c2 with
        | some h1, some h2 => byteOfNat (16 * h1 + h2) :: unquoteBytes rest
        | _, _ => fallback
      | _ => fallback
    else utf8Bytes c ++ unquoteBytes cs

/-- The function `utils.py:decode_site_url`, that is
`urllib.parse.unquote`, viewed as the UTF-8 byte sequence of its result. -/
def decode_site_url (encoded_url : String) : List Byte :=
  unquoteBytes encoded_url.toList

set_option maxRecDepth 4000 in
lemma safeChar_decodes (b : Byte) (h : isAlwaysSafe b = true) :
    (Char.ofNat b.val = '%') = False ∧ utf8Bytes (Char.ofNat b.val) = [b] := by
  revert h
  revert b
  decide

set_option maxRecDepth 4000 in
lemma hexCharVal_hexDigitChar (k : ℕ) (hk : k < 16) :
    hexCharVal (hexDigitChar k) = some k := by
  interval_cases k <;> decide

lemma unquoteBytes_encodeByte (b : Byte) (l : List Char) :
    unquoteBytes (encodeByte b ++ l) = b :: unquoteBytes l := by
  by_cases h : isAlwaysSafe b = true
  · obtain ⟨hne, hb⟩ := safeChar_decodes b h
    simp [encodeByte, h, unquoteBytes, hne, hb]
  · have h1 := hexCharVal_hexDigitChar (b.val / 16) (by omega)
    have h2 := hexCharVal_hexDigitChar (b.val % 16) (by omega)
    have hb : byteOfNat (16 * (b.val / 16) + b.val % 16) = b := by
      apply Fin.ext
      simp only [byteOfNat]
      omega
    simp [encodeByte, h, unquoteBytes, h1, h2, hb]

/-- C9: Percent-decoding exactly inverts the percent-encoding applied by
`encode_site_url` (which escapes every byte outside the unreserved set):
`decode_site_url (encode_site_url s) = s` for every byte sequence `s`. -/
theorem decode_encode_site_url (s : List Byte) :
    decode_site_url (encode_site_url s) = s := by
  induction s with
  | nil => simp [decode_site_url, encode_site_url, unquoteBytes, String.toList]
  | cons b rest ih =>
    show unquoteBytes ((b :: rest).flatMap encodeByte) = b :: rest
    rw [List.flatMap_cons, unquoteBytes_encodeByte]
    exact congrArg (b :: ·) ih

/-- The request body `resources.py:get_analytics_summary` sends to
`searchanalytics.query`: the last-28-days window from `get_date_range(28)`
and `rowLimit: 1`. -/
structure SummaryRequestBody where
  startDate : String
  endDate : String
  rowLimit : ℤ
deriving Repr, DecidableEq

/-- The body built at `resources.py:get_analytics_summary` with `now` the
day number of the current local date. -/
def get_analytics_summary_request (now : ℤ) : SummaryRequestBody :=
  { startDate := (get_date_range now 28).1
  , endDate := (get_date_range now 28).2
  , rowLimit := 1 }

/-- The metric fields of the summary dict built by
`resources.py:get_analytics_summary` (its `site_url` and `period` fields are
constant string interpolations of the arguments and are not modelled). -/
structure AnalyticsSummary where
  total_clicks : ℚ
  total_impressions : ℚ
  average_ctr : ℚ
  average_position : ℚ
deriving Repr, DecidableEq

/-- How `get_analytics_summary` computes its summary from the raw response:
each metric reads `rows[0]` when `rows` is non-empty and is `0` otherwise,
with the same rounding as the normalization layer. -/
def get_analytics_summary_result (response : RawResponse) : AnalyticsSummary :=
  let rows := response.rows.getD []
  { total_clicks := match rows with | [] => 0 | r :: _ => r.clicks.getD 0
  , total_impressions := match rows with | [] => 0 | r :: _ => r.impressions.getD 0
  , average_ctr := match rows with | [] => 0 | r :: _ => pyRound (r.ctr.getD 0 * 100) 2
  , average_position := match rows with | [] => 0 | r :: _ => pyRound (r.position.getD 0) 1 }

/-- C10: The analytics-summary resource queries with `rowLimit = 1`, its
summary depends only on the first returned row, and an empty (or absent) row
sequence yields `total_clicks = total_impressions = average_ctr =
average_position = 0`. -/
theorem get_analytics_summary_first_row_only :
    (∀ now : ℤ, (get_analytics_summary_request now).rowLimit = 1) ∧
    (∀ r1 r2 : RawResponse,
      (r1.rows.getD []).head? = (r2.rows.getD []).head? →
      get_analytics_summary_result r1 = get_analytics_summary_result r2) ∧
    (∀ response : RawResponse,
      response.rows = none ∨ response.rows = some [] →
      get_analytics_summary_result response = ⟨0, 0, 0, 0⟩) := by
  refine ⟨fun _n => rfl, ?_, ?_⟩
  · intro r1 r2 h
    unfold get_analytics_summary_result
    rcases h1 : r1.rows.getD [] with _ | ⟨a, l1⟩ <;>
      rcases h2 : r2.rows.getD [] with _ | ⟨b, l2⟩ <;>
      rw [h1, h2] at h <;> simp_all
  · intro response h
    rcases h with h | h <;> simp [get_analytics_summary_result, h]

/-- Witness for C10: two concrete responses sharing a first row (one with a
second row, one without) summarize identically, and the concrete empty
response summarizes to zeros. -/
theorem get_analytics_summary_first_row_only_witness :
    get_analytics_summary_result
        ⟨some [⟨none, some 10, some 200, some (5/100), some (314/100)⟩,
               ⟨none, some 5, some 100, some (5/100), some 7⟩], none⟩ =
      get_analytics_summary_result
        ⟨some [⟨none, some 10, some 200, some (5/100), some (314/100)⟩], none⟩ ∧
    get_analytics_summary_result ⟨some [], none⟩ = ⟨0, 0, 0, 0⟩ :=
  ⟨get_analytics_summary_first_row_only.2.1 _ _ rfl,
   get_analytics_summary_first_row_only.2.2 ⟨some [], none⟩ (Or.inr rfl)⟩

/-- An opaque remote-provided JSON record (site entries, sitemap entries,
URL-inspection results …): the dispatch layer passes these through
unmodified, so their internal structure is irrelevant and they are embedded
as opaque payloads. -/
def RemoteRecord : Type := String

/-- Success shape of the listing operations: the passed-through entry list
and its recomputed length under the `total` key. -/
structure ListingOut where
  entries : List RemoteRecord
  total : ℕ

/-- Success shape of the mutation tools: the `status` and `message` fields. -/
structure StatusOut where
  status : String
  message : String

/-- Outcome of a resource handler: `ok payload` is the JSON it serializes on
success; `errorEnvelope msg` is the returned (not raised) JSON string whose
single field `error` carries `msg`. -/
inductive ResourceOutcome (α : Type) where
  | ok (payload : α)
  | errorEnvelope (message : String)

/-- Body of the one remote call `tools.py:inspect_url` issues. -/
structure InspectionRequestBody where
  inspectionUrl : String
  siteUrl : String
  languageCode : String

/-- Body of the one remote call of `resources.py:get_top_queries` and
`get_top_pages`. -/
structure TopRequestBody where
  startDate : String
  endDate : String
  dimensions : List String
  rowLimit : ℤ

/-- The tool `tools.py:list_sitemaps`: one remote `sitemaps.list` call; the raw
response's optional `sitemap` key defaults to `[]`; any raised failure is
re-raised as `Exception(format_error_message(e))` (the `Except.error`). -/
def list_sitemaps (remote : Except String (Option (List RemoteRecord))) :
    Except String ListingOut :=
  match remote with
  | .ok response => .ok { entries := response.getD [], total := (response.getD []).length }
  | .error e => .error (format_error_message e)

/-- The tool `tools.py:get_sitemap`: one remote `sitemaps.get` call, response passed
through; failures re-raised categorized. -/
def get_sitemap (remote : Except String RemoteRecord) : Except String RemoteRecord :=
  match remote with
  | .ok response => .ok response
  | .error e => .error (format_error_message e)

/-- The tool `tools.py:submit_sitemap`: one remote `sitemaps.submit` call; success
returns the fixed status dict, failures re-raised categorized. -/
def submit_sitemap (feedpath : String) (remote : Except String Unit) :
    Except String StatusOut :=
  match remote with
  | .ok _ => .ok { status := "success"
                 , message := "Sitemap " ++ feedpath ++ " submitted successfully" }
  | .error e => .error (format_error_message e)

/-- The tool `tools.py:delete_sitemap`: one remote `sitemaps.delete` call. -/
def delete_sitemap (feedpath : String) (remote : Except String Unit) :
    Except String StatusOut :=
  match remote with
  | .ok _ => .ok { status := "success"
                 , message := "Sitemap " ++ feedpath ++ " deleted successfully" }
  | .error e => .error (format_error_message e)

/-- The tool `tools.py:list_sites`: one remote `sites.list` call; optional `siteEntry`
key defaults to `[]`. -/
def list_sites (remote : Except String (Option (List RemoteRecord))) :
    Except String ListingOut :=
  match remote with
  | .ok response => .ok { entries := response.getD [], total := (response.getD []).length }
  | .error e => .error (format_error_message e)

/-- The tool `tools.py:get_site`: one remote `sites.get` call, response passed
through. -/
def get_site (remote : Except String RemoteRecord) : Except String RemoteRecord :=
  match remote with
  | .ok response => .ok response
  | .error e => .error (format_error_message e)

/-- The tool `tools.py:add_site`: one remote `sites.add` call. -/
def add_site (site_url : String) (remote : Except String Unit) :
    Except String StatusOut :=
  match remote with
  | .ok _ => .ok { status := "success"
                 , message := "Site " ++ site_url ++ " added successfully" }
  | .error e => .error (format_error_message e)

/-- The tool `tools.py:delete_site`: one remote `sites.delete` call. -/
def delete_site (site_url : String) (remote : Except String Unit) :
    Except String StatusOut :=
  match remote with
  | .ok _ => .ok { status := "success"
                 , message := "Site " ++ site_url ++ " deleted successfully" }
  | .error e => .error (format_error_message e)

/-- The tool `tools.py:inspect_url`: one remote `urlInspection.index.inspect` call
with the assembled body, response passed through. -/
def inspect_url (inspection_url site_url language_code : String)
    (remote : InspectionRequestBody → Except String RemoteRecord) :
    Except String RemoteRecord :=
  match remote { inspectionUrl := inspection_url, siteUrl := site_url
               , languageCode := language_code } with
  | .ok response => .ok response
  | .error e => .error (format_error_message e)

/-- The resource `resources.py:get_sites_list`: like the `list_sites` tool, but any raised
failure is caught and returned as the JSON error envelope carrying
`format_error_message e` instead of propagating. -/
def get_sites_list (remote : Except String (Option (List RemoteRecord))) :
    ResourceOutcome ListingOut :=
  match remote with
  | .ok response => .ok { entries := response.getD [], total := (response.getD []).length }
  | .error e => .errorEnvelope (format_error_message e)

/-- The resource `resources.py:get_analytics_summary` as a resource: one remote call with
the 28-day `rowLimit = 1` body; failures become the error envelope. -/
def get_analytics_summary (now : ℤ)
    (remote : SummaryRequestBody → Except String RawResponse) :
    ResourceOutcome AnalyticsSummary :=
  match remote (get_analytics_summary_request now) with
  | .ok response => .ok (get_analytics_summary_result response)
  | .error e => .errorEnvelope (format_error_message e)

/-- The resource `resources.py:get_site_sitemaps`: one remote `sitemaps.list` call;
failures become the error envelope. -/
def get_site_sitemaps (remote : Except String (Option (List RemoteRecord))) :
    ResourceOutcome ListingOut :=
  match remote with
  | .ok response => .ok { entries := response.getD [], total := (response.getD []).length }
  | .error e => .errorEnvelope (format_error_message e)

/-- The resource `resources.py:get_top_queries`: one remote `searchanalytics.query` call
over the last 7 days grouped by query with a row limit of 10; the payload
is the normalized row list; failures become the error envelope. -/
def get_top_queries (now : ℤ)
    (remote : TopRequestBody → Except String RawResponse) :
    ResourceOutcome (List FormattedRow) :=
  match remote { startDate := (get_date_range now 7).1
               , endDate := (get_date_range now 7).2
               , dimensions := ["query"], rowLimit := 10 } with
  | .ok response => .ok (format_analytics_response response).rows
  | .error e => .errorEnvelope (format_error_message e)

/-- The resource `resources.py:get_top_pages`: as `get_top_queries`, but
grouped by page. -/
def get_top_pages (now : ℤ)
    (remote : TopRequestBody → Except String RawResponse) :
    ResourceOutcome (List FormattedRow) :=
  match remote { startDate := (get_date_range now 7).1
               , endDate := (get_date_range now 7).2
               , dimensions := ["page"], rowLimit := 10 } with
  | .ok response => .ok (format_analytics_response response).rows
  | .error e => .errorEnvelope (format_error_message e)

/-- C8: Failure propagation policy: when its single remote call raises a
failure with text `e`, every resource handler returns (does not raise) the
JSON error envelope carrying `format_error_message e`, and every tool
re-raises `format_error_message e` as a hard failure; each operation issues the one
modelled remote call and never retries, so no failure is swallowed or
replaced by a partial result.  (`get_config` performs no remote call and has
no failure path.) -/
theorem error_propagation_policy :
    (∀ (sd ed : String) (dims : Option (List String)) (rl sr : ℤ) (e : String),
      validate_date sd = true → validate_date ed = true →
      query_search_analytics sd ed dims rl sr (fun _b => .error e) =
        .error (format_error_message e)) ∧
    (∀ e : String, list_sitemaps (.error e) = .error (format_error_message e)) ∧
    (∀ e : String, get_sitemap (.error e) = .error (format_error_message e)) ∧
    (∀ (fp e : String), submit_sitemap fp (.error e) = .error (format_error_message e)) ∧
    (∀ (fp e : String), delete_sitemap fp (.error e) = .error (format_error_message e)) ∧
    (∀ e : String, list_sites (.error e) = .error (format_error_message e)) ∧
    (∀ e : String, get_site (.error e) = .error (format_error_message e)) ∧
    (∀ (su e : String), add_site su (.error e) = .error (format_error_message e)) ∧
    (∀ (su e : String), delete_site su (.error e) = .error (format_error_message e)) ∧
    (∀ (iu su lc e : String),
      inspect_url iu su lc (fun _b => .error e) = .error (format_error_message e)) ∧
    (∀ e : String, get_sites_list (.error e) = .errorEnvelope (format_error_message e)) ∧
    (∀ (now : ℤ) (e : String),
      get_analytics_summary now (fun _b => .error e) =
        .errorEnvelope (format_error_message e)) ∧
    (∀ e : String, get_site_sitemaps (.error e) = .errorEnvelope (format_error_message e)) ∧
    (∀ (now : ℤ) (e : String),
      get_top_queries now (fun _b => .error e) = .errorEnvelope (format_error_message e)) ∧
    (∀ (now : ℤ) (e : String),
      get_top_pages now (fun _b => .error e) = .errorEnvelope (format_error_message e)) := by
  refine ⟨?_, fun _ => rfl, fun _ => rfl, fun _ _ => rfl, fun _ _ => rfl,
    fun _ => rfl, fun _ => rfl, fun _ _ => rfl, fun _ _ => rfl,
    fun _ _ _ _ => rfl, fun _ => rfl, fun _ _ => rfl, fun _ => rfl,
    fun _ _ => rfl, fun _ _ => rfl⟩
  intro sd ed dims rl sr e h1 h2
  simp [query_search_analytics, query_search_analytics_trace, h1, h2]

/-- Witness for C8: the query tool at concrete valid dates and a concrete
remote failure re-raises the categorized message. -/
theorem error_propagation_policy_witness :
    query_search_analytics "2024-01-01" "2024-01-31" none 1000 0
        (fun _b => .error "HttpError 403") =
      .error (format_error_message "HttpError 403") :=
  error_propagation_policy.1 "2024-01-01" "2024-01-31" none 1000 0 "HttpError 403"
    (by decide) (by decide)

end McpGsc
